import Mathlib

/-
Verification of the BiMPM sentence-matching repository
(src/train.py, src/test.py, src/model/layers.py).

The Python code is shallowly embedded: configuration and attribute access
become explicit lookup over field-name lists, fallible statements return
Except values carrying the Python exception raised, tensors become nested
lists over exact rationals or reals, and the external deep-learning
primitives (LSTM cells, optimizers) become explicit function parameters,
as the specification treats them as external collaborators.
-/

namespace BimpmSpec

/-- Python exceptions that the embedded fragments can raise. -/
inductive PyErr : Type
  | attributeError (obj attr : String)
  | runtimeError (msg : String)
  | importError (modName : String)
  | nameError (name : String)
  | fileNotFound (path : String)
deriving DecidableEq

instance {ε α : Type} [DecidableEq ε] [DecidableEq α] : DecidableEq (Except ε α) :=
  fun a b =>
    match a, b with
    | Except.ok x, Except.ok y =>
        if h : x = y then isTrue (by rw [h]) else
          isFalse (fun hc => h (Except.ok.inj hc))
    | Except.error x, Except.error y =>
        if h : x = y then isTrue (by rw [h]) else
          isFalse (fun hc => h (Except.error.inj hc))
    | Except.ok _, Except.error _ => isFalse (fun hc => Except.noConfusion hc)
    | Except.error _, Except.ok _ => isFalse (fun hc => Except.noConfusion hc)

/-- Python attribute lookup against a fixed list of attribute names carried
by an object: returns the attribute name on success and raises
AttributeError otherwise. -/
def getattrPy (tyName : String) (attrs : List String) (attr : String) :
    Except PyErr String :=
  if attr ∈ attrs then Except.ok attr
  else Except.error (PyErr.attributeError tyName attr)

/-! ### train.py main: configuration dict and namedtuple (lines 16-46) -/

/-- Keyword parameters of train.main (src/train.py lines 16-27); these are
exactly the keys of the dict produced by locals() at line 28. -/
def trainMainLocalsKeys : List String :=
  ["batch_size", "char_dim", "char_hidden_size", "data_type", "dropout",
   "epoch", "gpu", "hidden_size", "lr", "num_perspectives",
   "print_interval", "word_dim"]

/-- Attributes resolvable on a Python dict object: the dict type methods.
Dict keys are looked up with d[k], never with d.k, so attribute access
ignores the stored keys entirely. -/
def dictTypeAttrs : List String :=
  ["keys", "values", "items", "get", "pop", "update", "clear", "copy",
   "setdefault", "popitem", "fromkeys"]

/-- Attribute access on the locals() dict of train.main: the dict holds the
configuration keys, but d.attr consults only the dict type attributes. -/
def dictGetattr (attr : String) : Except PyErr String :=
  if attr ∈ dictTypeAttrs then Except.ok attr
  else Except.error (PyErr.attributeError "dict" attr)

/-- Dataset dispatch of train.main (src/train.py lines 28-38): args is the
plain locals() dict and the branch condition evaluates args.data_type
before any dataset loading or model construction; on success the chosen
dataset name would be returned, otherwise the final branch raises
RuntimeError. -/
def trainMainDispatch (data_type : String) : Except PyErr String :=
  match dictGetattr "data_type" with
  | Except.error e => Except.error e
  | Except.ok _ =>
      if data_type = "SNLI" then Except.ok "SNLI"
      else if data_type = "Quora" then Except.ok "Quora"
      else Except.error
        (PyErr.runtimeError "Data source other than SNLI or Quora was provided.")

/-- The dataset dispatch as it would behave if args supported field access
(the conversion to a namedtuple only happens later, at line 46); this is
the behavior described by the branch bodies of lines 30-38 and by the
docstring of test.py. -/
def intendedDispatch (data_type : String) : Except PyErr String :=
  if data_type = "SNLI" then Except.ok "SNLI"
  else if data_type = "Quora" then Except.ok "Quora"
  else Except.error
    (PyErr.runtimeError "Data source other than SNLI or Quora was provided.")

/-- Fields of the args namedtuple built in train.main (lines 40-46): the
locals() keys plus four dataset-derived sizes, plus the key args under
which line 44 stores the timestamp string. No field is named model_time
and no field is named num_perpectives. -/
def trainArgsFields : List String :=
  trainMainLocalsKeys ++
    ["char_vocab_size", "word_vocab_size", "class_size", "max_word_len", "args"]

/-- Field access on the args namedtuple: vals gives the stored value of
each existing field. -/
def argsGetattr (vals : String → String) (attr : String) : Except PyErr String :=
  if attr ∈ trainArgsFields then Except.ok (vals attr)
  else Except.error (PyErr.attributeError "args" attr)

/-! ### train.py main: the model-saving epilogue (lines 51-54) -/

/-- Directories and files present on disk. -/
structure FS where
  dirs : List String
  files : List String
deriving DecidableEq

/-- Save epilogue of train.main (src/train.py lines 51-54): when the
directory saved_models is absent, os.makedirs is called on the misspelled
name save_models; then torch.save is called with a path built by an
f-string that reads args.data_type and args.model_time, left to right,
before anything is written to disk. Writing into saved_models only
succeeds when that directory exists. -/
def saveEpilogue (vals : String → String) (fs : FS) : FS × Except PyErr String :=
  let fs1 := if "saved_models" ∈ fs.dirs then fs
             else { dirs := "save_models" :: fs.dirs, files := fs.files }
  match argsGetattr vals "data_type" with
  | Except.error e => (fs1, Except.error e)
  | Except.ok dt =>
      match argsGetattr vals "model_time" with
      | Except.error e => (fs1, Except.error e)
      | Except.ok mt =>
          let path := "saved_models/bimpm_" ++ dt ++ "_" ++ mt ++ ".pt"
          if "saved_models" ∈ fs1.dirs then
            ({ dirs := fs1.dirs, files := path :: fs1.files }, Except.ok path)
          else (fs1, Except.error (PyErr.fileNotFound path))

/-! ### model/layers.py: module import (lines 1-4) -/

/-- Importable modules of the environment that are relevant to
src/model/layers.py: PyTorch ships torch, torch.nn and the lowercase
torch.nn.functional; module names are case sensitive, so there is no
module torch.nn.Functional. -/
def availableModules : List String :=
  ["torch", "torch.nn", "torch.nn.functional", "plac"]

/-- A single Python import statement: succeeds exactly when the module
exists. -/
def resolveModule (modName : String) : Except PyErr Unit :=
  if modName ∈ availableModules then Except.ok ()
  else Except.error (PyErr.importError modName)

/-- The import statements at the top of src/model/layers.py (lines 1-4),
in source order. Line 3 is the statement importing torch.nn.Functional. -/
def layersImportList : List String :=
  ["torch", "torch.nn", "torch.nn.Functional", "plac"]

/-- Runs a list of import statements in order, stopping at the first
failure, as Python does when executing a module top to bottom. -/
def runModuleImportList : List String → Except PyErr Unit
  | [] => Except.ok ()
  | m :: ms =>
      match resolveModule m with
      | Except.error e => Except.error e
      | Except.ok _ => runModuleImportList ms

/-- The class statements of src/model/layers.py, which only execute if
all the import statements above them succeed. -/
def layersClassNames : List String :=
  ["CharacterRepresentationEncoder", "WordRepresentationLayer",
   "ContextRepresentationLayer", "MatchingLayer", "AggregationLayer",
   "PredictionLayer"]

/-- Loading the module src/model/layers.py: the import statements run
before any class definition, so a failed import aborts the load and none
of the classes come into existence. -/
def loadLayersModule : Except PyErr (List String) :=
  match runModuleImportList layersImportList with
  | Except.error e => Except.error e
  | Except.ok _ => Except.ok layersClassNames

/-- Constructing one of the layer classes requires the module to have
loaded first. -/
def constructLayerClass (cls : String) : Except PyErr String :=
  match loadLayersModule with
  | Except.error e => Except.error e
  | Except.ok cs =>
      if cls ∈ cs then Except.ok cls
      else Except.error (PyErr.attributeError "model.layers" cls)

/-! ### model/layers.py: AggregationLayer constructor (lines 88-99) -/

/-- Attributes resolvable on an AggregationLayer instance at line 94:
the instance attribute args set at line 92, the nn.Module training flag,
and the class methods (the dropout method is misspelled droput).
nn.Module declares no attribute LSTM. -/
def aggregationAttrs : List String := ["args", "droput", "forward", "training"]

/-- Constructor body of AggregationLayer (src/model/layers.py lines
88-99): line 94 reads self.LSTM, and Python evaluates this callee before
the call arguments, so it is resolved first; had it resolved, the first
argument expression args.num_perpectives at line 95 would be evaluated
next against the args fields. -/
def aggregationInit (vals : String → String) : Except PyErr String :=
  match getattrPy "AggregationLayer" aggregationAttrs "LSTM" with
  | Except.error e => Except.error e
  | Except.ok _ =>
      match argsGetattr vals "num_perpectives" with
      | Except.error e => Except.error e
      | Except.ok _ => Except.ok "lstm"

/-! ### model/layers.py: the dropout slips in WordRepresentationLayer
(lines 34-54) -/

/-- Attributes resolvable on a WordRepresentationLayer instance after its
constructor ran: the instance attributes set in __init__ (args,
word_encoder, char_encoder), the nn.Module training flag, and the class
methods. The dropout method is misspelled droput at line 46, so no
attribute is named dropout. -/
def wordReprAttrs : List String :=
  ["args", "word_encoder", "char_encoder", "droput", "forward", "training"]

/-- Attributes of the module torch.nn.functional that are relevant here:
it provides dropout, relu and softmax; the misspelling droput does not
exist. -/
def functionalAttrs : List String := ["dropout", "relu", "softmax"]

/-- Forward of WordRepresentationLayer (src/model/layers.py lines 49-54):
the word lookup, the char encoding and the concatenation produce the
value concatRepr, and the final statement evaluates self.dropout on it.
The training flag is the second argument; it is never consulted because
the attribute lookup runs first. On a successful lookup the found
attribute would be called on concatRepr. -/
def wordReprForward (concatRepr : List ℚ) (_training : Bool) :
    Except PyErr (List ℚ) :=
  match getattrPy "WordRepresentationLayer" wordReprAttrs "dropout" with
  | Except.error e => Except.error e
  | Except.ok _ => Except.ok concatRepr

/-- The misspelled droput method of WordRepresentationLayer (lines 46-47):
its body reads F.droput from torch.nn.functional before calling it. -/
def wordReprDroput (v : List ℚ) (_training : Bool) : Except PyErr (List ℚ) :=
  match getattrPy "torch.nn.functional" functionalAttrs "droput" with
  | Except.error e => Except.error e
  | Except.ok _ => Except.ok v

/-! ### model/layers.py lines 40-42 with train.py lines 64-65: the frozen
word embedding and the optimizer parameter set -/

/-- A named parameter tensor of the model together with its
requires_grad flag. -/
structure Param where
  name : String
  value : List ℚ
  requiresGrad : Bool
deriving DecidableEq

/-- Parameter set of WordRepresentationLayer after __init__
(src/model/layers.py lines 34-44): line 41 copies the pretrained vectors
into the word embedding weight, line 42 sets its requires_grad to False;
the character embedding and the character LSTM weights keep the default
requires_grad = True. -/
def wordReprParams (pretrained charEmbInit charLstmInit : List ℚ) : List Param :=
  [⟨"word_encoder.weight", pretrained, false⟩,
   ⟨"char_encoder.char_encoder.weight", charEmbInit, true⟩,
   ⟨"char_encoder.lstm.weight", charLstmInit, true⟩]

/-- The parameter set handed to the optimizer (src/train.py line 64):
exactly the parameters with requires_grad. -/
def trainableParams (ps : List Param) : List Param :=
  ps.filter (fun p => p.requiresGrad)

/-- One optimizer update (src/train.py lines 65 and 86): the optimizer
applies an update rule to exactly the parameters it was handed, that is,
those with requires_grad; every other parameter keeps its value. -/
def optimizerStep (upd : String → List ℚ → List ℚ) (ps : List Param) :
    List Param :=
  ps.map (fun p =>
    if p.requiresGrad then ⟨p.name, upd p.name p.value, true⟩ else p)

/-- A whole training run as seen by the parameters: one optimizer update
per processed batch. -/
def runOptimizer (upds : List (String → List ℚ → List ℚ)) (ps : List Param) :
    List Param :=
  upds.foldl (fun acc u => optimizerStep u acc) ps

/-- Value of the first parameter with the given name, as a state_dict
lookup would report it. -/
def paramValue : List Param → String → Option (List ℚ)
  | [], _ => none
  | p :: ps, n => if p.name = n then some p.value else paramValue ps n

/-! ### train.py train (lines 59-122): the training loop -/

/-- External collaborators of the training loop: the gradient update for
one batch, the loss of one batch, the validation and test accuracy of the
periodic evaluation, the print interval, and the keep_training signal
checked at the top of every iteration. -/
structure TrainCfg (M B : Type) where
  step : M → B → M
  batchLoss : M → B → ℚ
  validAcc : M → ℚ
  testAcc : M → ℚ
  printInterval : ℕ
  keepTraining : ℕ → Bool

/-- Mutable state of the loop body of train (src/train.py lines 70-113):
the model parameters, the running training loss, the best validation and
test accuracies seen so far, and the best-model snapshot, which is absent
until the first strict improvement binds it. -/
structure TrainState (M : Type) where
  model : M
  trainLoss : ℚ
  maxValidAcc : ℚ
  maxTestAcc : ℚ
  best : Option M

/-- Initial loop state (lines 70-72): train_loss = 0, both maxima 0, and
the name best_model not yet bound. -/
def initState {M : Type} (m0 : M) : TrainState M :=
  ⟨m0, 0, 0, 0, none⟩

/-- One iteration of the loop body (src/train.py lines 78-113): the batch
is forwarded, its loss accumulated, and the optimizer updates the model;
at every print_interval-th iteration the updated model is evaluated, and
when the validation accuracy strictly exceeds the best seen so far the
maxima are replaced and a deep copy of the current model is retained as
best (line 110); the running training loss resets after each evaluation
block. -/
def trainStep {M B : Type} (c : TrainCfg M B) (i : ℕ) (b : B)
    (s : TrainState M) : TrainState M :=
  if (i + 1) % c.printInterval = 0 then
    if s.maxValidAcc < c.validAcc (c.step s.model b) then
      { model := c.step s.model b, trainLoss := 0,
        maxValidAcc := c.validAcc (c.step s.model b),
        maxTestAcc := c.testAcc (c.step s.model b),
        best := some (c.step s.model b) }
    else
      { model := c.step s.model b, trainLoss := 0,
        maxValidAcc := s.maxValidAcc, maxTestAcc := s.maxTestAcc,
        best := s.best }
  else
    { model := c.step s.model b,
      trainLoss := s.trainLoss + c.batchLoss s.model b,
      maxValidAcc := s.maxValidAcc, maxTestAcc := s.maxTestAcc,
      best := s.best }

/-- The enumerated batch loop (src/train.py lines 75-77): each iteration
first consults keep_training and breaks when it signals stop; the loop
also ends when the batch source is exhausted. -/
def trainLoop {M B : Type} (c : TrainCfg M B) :
    ℕ → List B → TrainState M → TrainState M
  | _, [], s => s
  | i, b :: rest, s =>
      if c.keepTraining i then trainLoop c (i + 1) rest (trainStep c i b s)
      else s

/-- The train function (src/train.py lines 59-122): runs the loop from
the initial state and returns best_model (line 122); when no improvement
ever bound best_model, the read of that name at line 119 raises
NameError. -/
def train {M B : Type} (c : TrainCfg M B) (m0 : M) (bs : List B) :
    Except PyErr M :=
  match (trainLoop c 0 bs (initState m0)).best with
  | some m => Except.ok m
  | none => Except.error (PyErr.nameError "best_model")

/-! ### test.py test (lines 121-175): the evaluation loop -/

/-- A model as the evaluation loop sees it: its parameters and the
nn.Module training flag toggled by model.train() and model.eval(). -/
structure BimpmModel (P : Type) where
  params : P
  training : Bool

/-- The two dataset iterators the valid and test modes choose between
(src/test.py lines 146-149). -/
structure SplitData (B : Type) where
  validIter : List B
  testIter : List B

/-- Split selection of test (src/test.py lines 146-149): valid picks the
validation iterator and test the test iterator; the app mode takes a
different branch that is outside this claim. -/
def selectIter {B : Type} (d : SplitData B) : String → Option (List B)
  | "valid" => some d.validIter
  | "test" => some d.testIter
  | _ => none

/-- Grad mode in effect inside the batch loop of test: the function body
(src/test.py lines 144-175) contains no no_grad context, so the ambient
grad mode of the caller is used unchanged for every forward pass. -/
def testGradMode (gradEnabled : Bool) : Bool := gradEnabled

/-- The accumulation loop of test (src/test.py lines 144-175): after
model.eval() flips the training flag off, every batch of the chosen
iterator is forwarded (bl gives the batch mean loss of the forward under
the given flag, bc the number of correct predictions, bsize the number of
examples); the per-batch losses and counts accumulate, and the function
returns the accumulated loss together with correct divided by the total
example count. -/
def testOn {P B : Type} (bl : P → Bool → B → ℚ) (bc : P → Bool → B → ℕ)
    (bsize : B → ℕ) (model : BimpmModel P) (batches : List B) : ℚ × ℚ :=
  let m : BimpmModel P := { params := model.params, training := false }
  let r := batches.foldl
    (fun (acc : ℚ × ℕ × ℕ) b =>
      (acc.1 + bl m.params m.training b,
       acc.2.1 + bc m.params m.training b,
       acc.2.2 + bsize b))
    ((0 : ℚ), (0 : ℕ), (0 : ℕ))
  (r.1, (r.2.1 : ℚ) / (r.2.2 : ℚ))

/-- The test function on the valid and test modes (src/test.py lines
121-175): selects the iterator of the chosen split and runs the
accumulation loop over it. -/
def test {P B : Type} (bl : P → Bool → B → ℚ) (bc : P → Bool → B → ℕ)
    (bsize : B → ℕ) (model : BimpmModel P) (d : SplitData B) (mode : String) :
    Option (ℚ × ℚ) :=
  (selectIter d mode).map (testOn bl bc bsize model)

/-! ### model/layers.py: CharacterRepresentationEncoder (lines 11-31) -/

/-- Weight of nn.Embedding(char_vocab_size, char_dim, padding_idx=0)
right after construction (src/model/layers.py lines 17-18): one row per
character id, drawn from the framework initializer initRow, except that
the padding row 0 is zeroed. -/
def charEmbWeight (initRow : ℕ → List ℚ) (vocab dim : ℕ) : List (List ℚ) :=
  (List.range vocab).map (fun i =>
    if i = 0 then List.replicate dim 0 else initRow i)

/-- Embedding lookup: row of the weight at the given character id. -/
def embedLookup (w : List (List ℚ)) (id : ℕ) : List ℚ := w.getD id []

/-- One gradient update of the character embedding weight: because
padding_idx = 0, the gradient at row 0 is identically zero, so any
first-order optimizer update leaves row 0 unchanged while the remaining
rows move by the update rule g. -/
def embUpdate (g : ℕ → List ℚ → List ℚ) : List (List ℚ) → List (List ℚ)
  | [] => []
  | r :: rest => r :: rest.mapIdx (fun i row => g (i + 1) row)

/-- A sequence of such gradient updates over a training run. -/
def runEmbUpdates (gs : List (ℕ → List ℚ → List ℚ)) (w : List (List ℚ)) :
    List (List ℚ) :=
  gs.foldl (fun acc g => embUpdate g acc) w

/-- Final hidden state of the single-layer forward-only LSTM over one
character sequence (src/model/layers.py lines 19-24 and 29): the LSTM
cell is an external framework primitive taking an input vector and the
(hidden, cell) pair; the encoder keeps the hidden half of the final
state. -/
def lstmFinalHidden {σ : Type} (cell : List ℚ → σ × σ → σ × σ) (h0 : σ × σ)
    (xs : List (List ℚ)) : σ :=
  (xs.foldl (fun s x => cell x s) h0).1

/-- Splits a flat list into consecutive groups of n, the embedding of
view(-1, seq_len, hidden) applied to the (batch*seq_len, hidden) output
(src/model/layers.py line 31). -/
def chunk {α : Type} (n : ℕ) : List α → List (List α)
  | [] => []
  | x :: rest =>
      if h : n = 0 then []
      else (x :: rest).take n :: chunk n ((x :: rest).drop n)
termination_by xs => xs.length
decreasing_by
  have h1 : 0 < n := Nat.pos_of_ne_zero h
  simp only [List.length_drop, List.length_cons]
  omega

/-- Forward of CharacterRepresentationEncoder (src/model/layers.py lines
26-31): the (batch, seq_len, max_word_len) id tensor is viewed as
(batch*seq_len, max_word_len) so each word is an independent character
sequence; each character id is embedded, the LSTM runs over each word and
its final hidden state is kept, and the result is viewed back as
(batch, seq_len, char_hidden_size). -/
def charReprForward {σ : Type} (w : List (List ℚ))
    (cell : List ℚ → σ × σ → σ × σ) (h0 : σ × σ) (seqLen : ℕ)
    (chars : List (List (List ℕ))) : List (List σ) :=
  let flat := chars.flatten
  let embedded := flat.map (fun word => word.map (embedLookup w))
  let finals := embedded.map (lstmFinalHidden cell h0)
  chunk seqLen finals

/-! ### Matching layer similarity computations, modelled from the spec -/

/-- Dot product of two real vectors. -/
noncomputable def dotR (a b : List ℝ) : ℝ :=
  (List.zipWith (fun x y => x * y) a b).sum

/-- Elementwise product of two vectors, used to scale a vector by a
perspective weight before comparison. -/
noncomputable def hadamard (a b : List ℝ) : List ℝ :=
  List.zipWith (fun x y => x * y) a b

/-- Modelled from the spec: MatchingLayer.forward in src/model/layers.py
(lines 79-85) is an empty stub, so the cosine similarity it is specified
to compute is taken from sections 4.4 and 7 of the spec: the cosine of
two vectors, with the locally defined fallback value 0 whenever either
vector is the zero vector, instead of the 0/0 the raw formula would
produce. -/
noncomputable def cosineSim (a b : List ℝ) : ℝ :=
  if dotR a a = 0 ∨ dotR b b = 0 then 0
  else dotR a b / (Real.sqrt (dotR a a) * Real.sqrt (dotR b b))

/-- Modelled from the spec: multi-perspective cosine similarity of
section 4.4, absent from the stubbed MatchingLayer: each perspective
weight scales both vectors elementwise before the cosine comparison,
giving one similarity per perspective. -/
noncomputable def mpCosineSim (W : List (List ℝ)) (a b : List ℝ) : List ℝ :=
  W.map (fun w => cosineSim (hadamard w a) (hadamard w b))

/-- Vector sum, entrywise. -/
noncomputable def vecAdd (a b : List ℝ) : List ℝ :=
  List.zipWith (fun x y => x + y) a b

/-- Scalar multiple of a vector. -/
noncomputable def vecScale (c : ℝ) (v : List ℝ) : List ℝ :=
  v.map (fun x => c * x)

/-- Weighted sum of the position vectors of the other sentence. -/
noncomputable def weightedSum (ws : List ℝ) (qs : List (List ℝ)) (d : ℕ) :
    List ℝ :=
  (List.zipWith vecScale ws qs).foldl vecAdd (List.replicate d 0)

/-- Modelled from the spec: the attentive average of section 4.4, absent
from the stubbed MatchingLayer: the attention weights of one row are
normalized to sum to one, and when the whole row is zero the locally
defined fallback output is the zero vector of the position dimension d,
instead of a division by zero. -/
noncomputable def attentiveVec (ws : List ℝ) (qs : List (List ℝ)) (d : ℕ) :
    List ℝ :=
  if ws.sum = 0 then List.replicate d 0
  else vecScale (1 / ws.sum) (weightedSum ws qs d)

/-- A tiny concrete training configuration used to exercise the loop:
the model is a single rational, each batch adds its value to the model,
every accuracy equals the model value, evaluation happens every step and
keep_training never stops early. -/
def trainCfgW : TrainCfg ℚ ℚ :=
  ⟨fun m b => m + b, fun _ _ => 1, fun m => m, fun m => m, 1, fun _ => true⟩

/-! Theorems for the claims, with their helper lemmas. -/

/-- C9: Importing the layer-definitions module raises an import error
unconditionally, because line 3 of src/model/layers.py imports the
nonexistent module torch.nn.Functional, so none of the layer classes
defined in the module can ever be constructed. -/
theorem layers_module_never_loads :
    loadLayersModule = Except.error (PyErr.importError "torch.nn.Functional")
    ∧ ∀ cls, constructLayerClass cls =
        Except.error (PyErr.importError "torch.nn.Functional") := by
  refine ⟨by decide, fun cls => ?_⟩
  simp [constructLayerClass, show loadLayersModule =
    Except.error (PyErr.importError "torch.nn.Functional") by decide]

/-- C3: The entry point of train.py does fail before model construction
for every data_type value, but with AttributeError, not RuntimeError:
args is the plain locals() dict at line 30, so args.data_type raises
before the branch is ever compared — the RuntimeError of lines 36-38 is
unreachable. The second conjunct records the intended dispatch the claim
describes: with field access working, every unsupported name reaches the
RuntimeError and no value is coerced. -/
theorem trainMain_dispatch_attribute_error (dt : String) :
    trainMainDispatch dt =
      Except.error (PyErr.attributeError "dict" "data_type")
    ∧ (dt ≠ "SNLI" → dt ≠ "Quora" → intendedDispatch dt =
        Except.error (PyErr.runtimeError
          "Data source other than SNLI or Quora was provided.")) := by
  constructor
  · simp [trainMainDispatch,
      show dictGetattr "data_type" =
        Except.error (PyErr.attributeError "dict" "data_type") by decide]
  · intro h1 h2
    simp [intendedDispatch, h1, h2]

/-- Witness for C3 at the concrete inputs SNLI and foo. -/
theorem trainMain_dispatch_witness :
    trainMainDispatch "SNLI" =
      Except.error (PyErr.attributeError "dict" "data_type")
    ∧ intendedDispatch "foo" =
      Except.error (PyErr.runtimeError
        "Data source other than SNLI or Quora was provided.") :=
  ⟨(trainMain_dispatch_attribute_error "SNLI").1,
   (trainMain_dispatch_attribute_error "foo").2 (by decide) (by decide)⟩

/-- C7: Constructing AggregationLayer fails: line 94 of
src/model/layers.py reads the nonexistent attribute self.LSTM, raising
AttributeError before the layer exists; moreover the intended input-width
argument reads args.num_perpectives, a field the configuration does not
have (it is spelled num_perspectives), so the claimed input and output
dimensions are never realized at runtime. -/
theorem aggregation_init_attribute_error (vals : String → String) :
    aggregationInit vals =
      Except.error (PyErr.attributeError "AggregationLayer" "LSTM")
    ∧ "num_perpectives" ∉ trainArgsFields
    ∧ "num_perspectives" ∈ trainArgsFields := by
  refine ⟨?_, by decide, by decide⟩
  simp [aggregationInit,
    show getattrPy "AggregationLayer" aggregationAttrs "LSTM" =
      Except.error (PyErr.attributeError "AggregationLayer" "LSTM") by decide]

/-- C5: The dropout operation of WordRepresentationLayer is not the
identity at inference: the forward at line 54 of src/model/layers.py
reads self.dropout, an attribute that does not exist (the method is
misspelled droput), so every forward raises AttributeError regardless of
the training flag; the misspelled method itself reads the nonexistent
F.droput and would also raise. -/
theorem wordRepr_dropout_attribute_error (x : List ℚ) (tr : Bool) :
    wordReprForward x tr =
      Except.error (PyErr.attributeError "WordRepresentationLayer" "dropout")
    ∧ wordReprDroput x tr =
      Except.error (PyErr.attributeError "torch.nn.functional" "droput") := by
  constructor
  · simp [wordReprForward,
      show getattrPy "WordRepresentationLayer" wordReprAttrs "dropout" =
        Except.error (PyErr.attributeError "WordRepresentationLayer" "dropout")
        by decide]
  · simp [wordReprDroput,
      show getattrPy "torch.nn.functional" functionalAttrs "droput" =
        Except.error (PyErr.attributeError "torch.nn.functional" "droput")
        by decide]

/-- C10: The save epilogue of train.main never writes the model file:
from any disk state lacking saved_models, it creates the misspelled
save_models instead, leaves saved_models absent, and the save-path
f-string raises AttributeError on args.model_time — a field the args
namedtuple does not have, the timestamp having been stored under the key
args — before any file is written. -/
theorem save_epilogue_never_writes (vals : String → String) (fs : FS)
    (h : "saved_models" ∉ fs.dirs) :
    (saveEpilogue vals fs).2 =
      Except.error (PyErr.attributeError "args" "model_time")
    ∧ (saveEpilogue vals fs).1.dirs = "save_models" :: fs.dirs
    ∧ "saved_models" ∉ (saveEpilogue vals fs).1.dirs
    ∧ (saveEpilogue vals fs).1.files = fs.files
    ∧ "model_time" ∉ trainArgsFields
    ∧ "args" ∈ trainArgsFields := by
  have hdt : "data_type" ∈ trainArgsFields := by decide
  have hmt : "model_time" ∉ trainArgsFields := by decide
  have hdirs : (saveEpilogue vals fs).1.dirs = "save_models" :: fs.dirs := by
    simp [saveEpilogue, argsGetattr, if_neg h, if_pos hdt, if_neg hmt]
  refine ⟨?_, hdirs, ?_, ?_, hmt, by decide⟩
  · simp [saveEpilogue, argsGetattr, if_neg h, if_pos hdt, if_neg hmt]
  · rw [hdirs]
    intro hmem
    rcases List.mem_cons.mp hmem with h1 | h1
    · exact absurd h1 (by decide)
    · exact h h1
  · simp [saveEpilogue, argsGetattr, if_neg h, if_pos hdt, if_neg hmt]

/-- Witness for C10 starting from an empty disk. -/
theorem save_epilogue_witness :
    "saved_models" ∉ (FS.mk [] []).dirs
    ∧ (saveEpilogue (fun _ => "t") (FS.mk [] [])).2 =
        Except.error (PyErr.attributeError "args" "model_time") :=
  ⟨by decide,
   (save_epilogue_never_writes (fun _ => "t") (FS.mk [] []) (by decide)).1⟩

/-- Helper: an optimizer run never touches a parameter with
requires_grad = False sitting at the head of the parameter list. -/
theorem runOptimizer_frozen_cons (upds : List (String → List ℚ → List ℚ))
    (q : Param) (hq : q.requiresGrad = false) (rest : List Param) :
    runOptimizer upds (q :: rest) = q :: runOptimizer upds rest := by
  induction upds generalizing rest with
  | nil => rfl
  | cons u us ih =>
      have hstep : optimizerStep u (q :: rest) = q :: optimizerStep u rest := by
        simp [optimizerStep, hq]
      calc runOptimizer (u :: us) (q :: rest)
          = runOptimizer us (optimizerStep u (q :: rest)) := rfl
        _ = runOptimizer us (q :: optimizerStep u rest) := by rw [hstep]
        _ = q :: runOptimizer us (optimizerStep u rest) := ih _
        _ = q :: runOptimizer (u :: us) rest := rfl

/-- C4: The pretrained word-embedding weight is initialized by copying
the external vectors, it is excluded from the parameter set handed to the
optimizer (whose names are exactly the trainable character encoder
weights), and its value is unchanged after any sequence of optimizer
update steps. -/
theorem frozen_word_embedding (pre ce cl : List ℚ)
    (upds : List (String → List ℚ → List ℚ)) :
    paramValue (wordReprParams pre ce cl) "word_encoder.weight" = some pre
    ∧ (trainableParams (wordReprParams pre ce cl)).map (fun p => p.name) =
        ["char_encoder.char_encoder.weight", "char_encoder.lstm.weight"]
    ∧ paramValue (runOptimizer upds (wordReprParams pre ce cl))
        "word_encoder.weight" = some pre := by
  refine ⟨by simp [wordReprParams, paramValue], ?_, ?_⟩
  · simp [wordReprParams, trainableParams]
  · have hrun : runOptimizer upds (wordReprParams pre ce cl) =
        Param.mk "word_encoder.weight" pre false ::
          runOptimizer upds
            [Param.mk "char_encoder.char_encoder.weight" ce true,
             Param.mk "char_encoder.lstm.weight" cl true] :=
      runOptimizer_frozen_cons upds _ rfl _
    rw [hrun]
    simp [paramValue]

/-- Helper: the triple-accumulator fold of the evaluation loop computes
the three sums. -/
theorem foldl_acc_triple {B : Type} (f : B → ℚ) (g k : B → ℕ) :
    ∀ (l : List B) (a : ℚ) (b c : ℕ),
      l.foldl (fun (acc : ℚ × ℕ × ℕ) x =>
        (acc.1 + f x, acc.2.1 + g x, acc.2.2 + k x)) (a, b, c) =
      (a + (l.map f).sum, b + (l.map g).sum, c + (l.map k).sum) := by
  intro l
  induction l with
  | nil => intro a b c; simp
  | cons x xs ih =>
      intro a b c
      simp only [List.foldl_cons, List.map_cons, List.sum_cons]
      rw [ih]
      simp [add_assoc]

/-- C2 counterexample: on a validation split of two batches with batch
mean losses 1 and 3 (one example each), the evaluation function returns
the accumulated loss 4, not the mean 2, and the grad mode of the caller
stays enabled throughout, since the loop never enters a no_grad context;
so the claim that it returns the mean loss under disabled gradient
tracking is false on this input. -/
theorem test_mean_loss_counterexample :
    test (fun _ _ (b : ℚ) => b) (fun _ _ _ => 1) (fun _ => 1)
      (BimpmModel.mk () true) (SplitData.mk [1, 3] []) "valid" =
      some (4, 1)
    ∧ (4 : ℚ) ≠ ((1 : ℚ) + 3) / 2
    ∧ testGradMode true = true := by
  refine ⟨?_, by norm_num, rfl⟩
  show some (testOn (fun _ _ (b : ℚ) => b) (fun _ _ _ => 1) (fun _ => 1)
    (BimpmModel.mk () true) [1, 3]) = some (4, 1)
  simp only [testOn, List.foldl]
  norm_num

/-- C2 amended: for both the valid and the test split, the evaluation
function runs every forward with the training flag forced off (dropout
disabled) but does not change the ambient gradient-tracking mode, and it
returns the sum of the per-batch losses together with the mean accuracy
(total correct predictions over total examples). -/
theorem test_eval_behavior {P B : Type} (bl : P → Bool → B → ℚ)
    (bc : P → Bool → B → ℕ) (bsize : B → ℕ) (model : BimpmModel P)
    (d : SplitData B) (g : Bool) :
    test bl bc bsize model d "valid" =
      some ((d.validIter.map (bl model.params false)).sum,
        (((d.validIter.map (bc model.params false)).sum : ℕ) : ℚ) /
          (((d.validIter.map bsize).sum : ℕ) : ℚ))
    ∧ test bl bc bsize model d "test" =
      some ((d.testIter.map (bl model.params false)).sum,
        (((d.testIter.map (bc model.params false)).sum : ℕ) : ℚ) /
          (((d.testIter.map bsize).sum : ℕ) : ℚ))
    ∧ testGradMode g = g := by
  have key : ∀ l : List B, testOn bl bc bsize model l =
      ((l.map (bl model.params false)).sum,
        (((l.map (bc model.params false)).sum : ℕ) : ℚ) /
          (((l.map bsize).sum : ℕ) : ℚ)) := by
    intro l
    simp only [testOn]
    rw [foldl_acc_triple]
    simp
  refine ⟨?_, ?_, rfl⟩
  · show some (testOn bl bc bsize model d.validIter) = _
    rw [key]
  · show some (testOn bl bc bsize model d.testIter) = _
    rw [key]

/-- Helper: one loop iteration preserves the invariant that the retained
snapshot achieves exactly the running best validation accuracy. -/
theorem trainStep_best_acc {M B : Type} (c : TrainCfg M B) (i : ℕ) (b : B)
    (s : TrainState M)
    (hs : ∀ m, s.best = some m → c.validAcc m = s.maxValidAcc) :
    ∀ m, (trainStep c i b s).best = some m →
      c.validAcc m = (trainStep c i b s).maxValidAcc := by
  intro m hm
  by_cases h1 : (i + 1) % c.printInterval = 0
  · by_cases h2 : s.maxValidAcc < c.validAcc (c.step s.model b)
    · simp only [trainStep, if_pos h1, if_pos h2, Option.some.injEq] at hm ⊢
      rw [← hm]
    · simp only [trainStep, if_pos h1, if_neg h2] at hm ⊢
      exact hs m hm
  · simp only [trainStep, if_neg h1] at hm ⊢
    exact hs m hm

/-- Helper: the whole loop preserves the snapshot-accuracy invariant. -/
theorem trainLoop_best_acc {M B : Type} (c : TrainCfg M B) :
    ∀ (bs : List B) (i : ℕ) (s : TrainState M),
      (∀ m, s.best = some m → c.validAcc m = s.maxValidAcc) →
      ∀ m, (trainLoop c i bs s).best = some m →
        c.validAcc m = (trainLoop c i bs s).maxValidAcc := by
  intro bs
  induction bs with
  | nil =>
      intro i s hs m hm
      simp only [trainLoop] at hm ⊢
      exact hs m hm
  | cons b rest ih =>
      intro i s hs m hm
      by_cases hk : c.keepTraining i = true
      · simp only [trainLoop, if_pos hk] at hm ⊢
        exact ih (i + 1) (trainStep c i b s) (trainStep_best_acc c i b s hs) m hm
      · simp only [trainLoop, if_neg hk] at hm ⊢
        exact hs m hm

/-- C1: Whenever a periodic validation pass strictly improves on the best
validation accuracy seen so far, the current model is retained as the
snapshot (fourth conjunct); a gradient update whose checkpoint does not
strictly improve never changes the retained snapshot (third conjunct);
the retained snapshot achieves exactly the final best validation accuracy
(second conjunct); and when the loop terminates having retained a
snapshot, train returns exactly that snapshot (first conjunct). -/
theorem train_best_snapshot {M B : Type} (c : TrainCfg M B) (m0 : M)
    (bs : List B) (m : M)
    (h : (trainLoop c 0 bs (initState m0)).best = some m) :
    train c m0 bs = Except.ok m
    ∧ c.validAcc m = (trainLoop c 0 bs (initState m0)).maxValidAcc
    ∧ (∀ (i : ℕ) (b : B) (s : TrainState M),
        c.validAcc (c.step s.model b) ≤ s.maxValidAcc →
        (trainStep c i b s).best = s.best)
    ∧ (∀ (i : ℕ) (b : B) (s : TrainState M),
        (i + 1) % c.printInterval = 0 →
        s.maxValidAcc < c.validAcc (c.step s.model b) →
        (trainStep c i b s).best = some (c.step s.model b)) := by
  refine ⟨?_, ?_, ?_, ?_⟩
  · unfold train
    rw [h]
  · exact trainLoop_best_acc c bs 0 (initState m0)
      (fun m' hm' => by simp [initState] at hm') m h
  · intro i b s hle
    have h2 : ¬ s.maxValidAcc < c.validAcc (c.step s.model b) := not_lt.mpr hle
    by_cases h1 : (i + 1) % c.printInterval = 0
    · simp only [trainStep, if_pos h1, if_neg h2]
    · simp only [trainStep, if_neg h1]
  · intro i b s h1 h2
    simp only [trainStep, if_pos h1, if_pos h2]

/-- Witness for C1 on the concrete configuration: one batch of value 1,
evaluation every step; the improvement binds the snapshot 1 and train
returns it. -/
theorem train_best_snapshot_witness :
    (trainLoop trainCfgW 0 [1] (initState (0 : ℚ))).best = some 1
    ∧ train trainCfgW 0 [1] = Except.ok 1 := by
  have h : (trainLoop trainCfgW 0 [1] (initState (0 : ℚ))).best = some 1 := by
    norm_num [trainLoop, trainStep, initState, trainCfgW]
  exact ⟨h, (train_best_snapshot trainCfgW 0 [1] 1 h).1⟩

/-- Helper: chunk on the empty list. -/
theorem chunk_nil {α : Type} (n : ℕ) : chunk n ([] : List α) = [] := by
  simp [chunk]

/-- Helper: chunk unfolds one step on a nonempty list. -/
theorem chunk_cons {α : Type} (n : ℕ) (x : α) (xs : List α) (h : n ≠ 0) :
    chunk n (x :: xs) = (x :: xs).take n :: chunk n ((x :: xs).drop n) := by
  rw [chunk]
  simp [h]

/-- Helper: chunk splits off a leading group of exactly the group size. -/
theorem chunk_append {α : Type} (S : ℕ) (hS0 : S ≠ 0) (l t : List α)
    (hne : l ≠ []) (hlen : l.length = S) :
    chunk S (l ++ t) = l :: chunk S t := by
  obtain ⟨x, l', rfl⟩ := List.exists_cons_of_ne_nil hne
  rw [List.cons_append, chunk_cons S x (l' ++ t) hS0, ← List.cons_append,
      List.take_left' hlen, List.drop_left' hlen]

/-- Helper: chunking the flattening of uniformly sized groups recovers
the groups, so the two views of the forward cancel. -/
theorem chunk_flatten {α : Type} (S : ℕ) (hS : 0 < S) :
    ∀ L : List (List α), (∀ l ∈ L, l.length = S) → chunk S L.flatten = L := by
  intro L
  induction L with
  | nil => intro _; rw [List.flatten_nil, chunk_nil]
  | cons l rest ih =>
      intro hlen
      have hl : l.length = S := hlen l (by simp)
      have hne : l ≠ [] := by
        intro hnil
        rw [hnil] at hl
        simp at hl
        omega
      rw [List.flatten_cons,
          chunk_append S (Nat.pos_iff_ne_zero.mp hS) l rest.flatten hne hl,
          ih (fun l' hl' => hlen l' (by simp [hl']))]

/-- Helper: a run of padding-respecting embedding updates keeps the head
row in place. -/
theorem runEmbUpdates_cons (gs : List (ℕ → List ℚ → List ℚ)) (r : List ℚ) :
    ∀ rest : List (List ℚ), ∃ rest',
      runEmbUpdates gs (r :: rest) = r :: rest' := by
  induction gs with
  | nil => exact fun rest => ⟨rest, rfl⟩
  | cons g gs ih =>
      intro rest
      obtain ⟨rest', h⟩ := ih (rest.mapIdx fun i row => g (i + 1) row)
      exact ⟨rest', h⟩

/-- Helper: the freshly constructed character embedding weight starts
with the zeroed padding row. -/
theorem charEmbWeight_head (initRow : ℕ → List ℚ) (vocab d : ℕ)
    (hv : 0 < vocab) :
    ∃ rest, charEmbWeight initRow vocab d = List.replicate d 0 :: rest := by
  obtain ⟨v, rfl⟩ := Nat.exists_eq_succ_of_ne_zero (Nat.pos_iff_ne_zero.mp hv)
  refine ⟨(List.map Nat.succ (List.range v)).map
    (fun i => if i = 0 then List.replicate d 0 else initRow i), ?_⟩
  unfold charEmbWeight
  rw [Nat.succ_eq_add_one, List.range_succ_eq_map, List.map_cons]
  simp

/-- C8: After construction with padding id 0 and any run of
gradient updates, the padding row of the character embedding is the zero
vector; the forward of CharacterRepresentationEncoder treats each word of
the (batch, seq_len, max_word_len) id tensor as an independent character
sequence, embeds it, keeps the final hidden state of the recurrent cell
for each word, and returns the (batch, seq_len) arrangement of those
hidden states, so the output has batch rows of seq_len entries each. -/
theorem charRepr_forward_correct {σ : Type} (cell : List ℚ → σ × σ → σ × σ)
    (h0 : σ × σ) (initRow : ℕ → List ℚ) (vocab dim S : ℕ)
    (gs : List (ℕ → List ℚ → List ℚ)) (chars : List (List (List ℕ)))
    (hv : 0 < vocab) (hS : 0 < S)
    (hlen : ∀ sent ∈ chars, sent.length = S) :
    embedLookup (runEmbUpdates gs (charEmbWeight initRow vocab dim)) 0 =
      List.replicate dim 0
    ∧ (∀ w : List (List ℚ),
        charReprForward w cell h0 S chars =
          chars.map (fun sent => sent.map (fun word =>
            lstmFinalHidden cell h0 (word.map (embedLookup w)))))
    ∧ (∀ w : List (List ℚ),
        (charReprForward w cell h0 S chars).length = chars.length
        ∧ (charReprForward w cell h0 S chars).map List.length =
            List.replicate chars.length S) := by
  have hforward : ∀ w : List (List ℚ),
      charReprForward w cell h0 S chars =
        chars.map (fun sent => sent.map (fun word =>
          lstmFinalHidden cell h0 (word.map (embedLookup w)))) := by
    intro w
    show chunk S
        ((chars.flatten.map (fun word => word.map (embedLookup w))).map
          (lstmFinalHidden cell h0)) = _
    rw [List.map_map, List.map_flatten]
    rw [chunk_flatten S hS]
    · simp [Function.comp]
    · intro l hl
      obtain ⟨sent, hsent, rfl⟩ := List.mem_map.mp hl
      simp [hlen sent hsent]
  refine ⟨?_, hforward, ?_⟩
  · obtain ⟨rest, hw⟩ := charEmbWeight_head initRow vocab dim hv
    rw [hw]
    obtain ⟨rest', hr⟩ := runEmbUpdates_cons gs (List.replicate dim 0) rest
    rw [hr]
    rfl
  · intro w
    rw [hforward w]
    refine ⟨by simp, ?_⟩
    rw [List.map_map]
    refine List.eq_replicate_iff.mpr ⟨by simp, ?_⟩
    intro b hb
    obtain ⟨sent, hsent, rfl⟩ := List.mem_map.mp hb
    simp [hlen sent hsent]

/-- Witness for C8 on a one-sentence one-word batch over a two-character
vocabulary. -/
theorem charRepr_forward_witness :
    ((0 : ℕ) < 2 ∧ (0 : ℕ) < 1 ∧
      ∀ sent ∈ [[[(0 : ℕ), 1]]], List.length sent = 1)
    ∧ embedLookup (runEmbUpdates [] (charEmbWeight (fun _ => [1]) 2 1)) 0 =
        List.replicate 1 0 :=
  ⟨⟨by decide, by decide, by decide⟩,
   (charRepr_forward_correct
      (fun x (s : ℚ × ℚ) => (s.1 + x.foldl (fun a b => a + b) 0, s.2))
      ((0 : ℚ), (0 : ℚ)) (fun _ => [1]) 2 1 1 [] [[[0, 1]]]
      (by decide) (by decide) (by decide)).1⟩

/-- Helper: a dot product whose left factor is the zero vector is 0. -/
theorem dotR_zero_left (n : ℕ) : ∀ b : List ℝ, dotR (List.replicate n 0) b = 0 := by
  induction n with
  | zero => intro b; simp [dotR]
  | succ k ih =>
      intro b
      cases b with
      | nil => simp [dotR]
      | cons x xs =>
          rw [List.replicate_succ]
          show (List.zipWith (fun x y => x * y)
            (0 :: List.replicate k 0) (x :: xs)).sum = 0
          rw [List.zipWith_cons_cons, List.sum_cons, zero_mul, zero_add]
          exact ih xs

/-- Helper: a dot product whose right factor is the zero vector is 0. -/
theorem dotR_zero_right (n : ℕ) : ∀ a : List ℝ, dotR a (List.replicate n 0) = 0 := by
  induction n with
  | zero => intro a; simp [dotR]
  | succ k ih =>
      intro a
      cases a with
      | nil => simp [dotR]
      | cons x xs =>
          rw [List.replicate_succ]
          show (List.zipWith (fun x y => x * y)
            (x :: xs) (0 :: List.replicate k 0)).sum = 0
          rw [List.zipWith_cons_cons, List.sum_cons, mul_zero, zero_add]
          exact ih xs

/-- Helper: scaling the zero vector elementwise by a perspective weight
still gives a zero vector. -/
theorem hadamard_zero_right :
    ∀ (w : List ℝ) (n : ℕ), hadamard w (List.replicate n 0) =
      List.replicate (min w.length n) 0 := by
  intro w
  induction w with
  | nil => intro n; simp [hadamard]
  | cons x xs ih =>
      intro n
      cases n with
      | zero => simp [hadamard]
      | succ k =>
          rw [List.replicate_succ]
          show x * 0 :: hadamard xs (List.replicate k 0) = _
          rw [mul_zero, ih k, List.length_cons, Nat.succ_min_succ,
              List.replicate_succ]

/-- Helper: cosine similarity with a zero left vector takes the fallback
branch. -/
theorem cosineSim_zero_left (n : ℕ) (b : List ℝ) :
    cosineSim (List.replicate n 0) b = 0 := by
  unfold cosineSim
  rw [if_pos (Or.inl (dotR_zero_left n (List.replicate n 0)))]

/-- Helper: cosine similarity with a zero right vector takes the fallback
branch. -/
theorem cosineSim_zero_right (n : ℕ) (b : List ℝ) :
    cosineSim b (List.replicate n 0) = 0 := by
  unfold cosineSim
  rw [if_pos (Or.inr (dotR_zero_left n (List.replicate n 0)))]

/-- C6: In the matching-layer similarity computations (modelled from the
spec, the source layer being an empty stub), a zero vector given to the
cosine similarity on either side yields similarity 0 by the local
fallback, every perspective of the multi-perspective similarity against a
zero vector is 0, and an all-zero attention-weight row yields the zero
vector as the attentive output; no division by zero is ever taken. -/
theorem matching_zero_fallbacks (n m d : ℕ) (b : List ℝ)
    (W : List (List ℝ)) (qs : List (List ℝ)) :
    cosineSim (List.replicate n 0) b = 0
    ∧ cosineSim b (List.replicate n 0) = 0
    ∧ mpCosineSim W (List.replicate n 0) b = List.replicate W.length 0
    ∧ attentiveVec (List.replicate m 0) qs d = List.replicate d 0 := by
  refine ⟨cosineSim_zero_left n b, cosineSim_zero_right n b, ?_, ?_⟩
  · unfold mpCosineSim
    refine List.eq_replicate_iff.mpr ⟨by simp, ?_⟩
    intro s hs
    obtain ⟨w, hw, rfl⟩ := List.mem_map.mp hs
    rw [hadamard_zero_right]
    exact cosineSim_zero_left _ _
  · unfold attentiveVec
    rw [if_pos (by simp)]

/-- Witness for C9 at the concrete class MatchingLayer. -/
theorem layers_module_witness :
    constructLayerClass "MatchingLayer" =
      Except.error (PyErr.importError "torch.nn.Functional") :=
  layers_module_never_loads.2 "MatchingLayer"

/-- Witness for C7 at a concrete configuration valuation. -/
theorem aggregation_init_witness :
    aggregationInit (fun _ => "") =
      Except.error (PyErr.attributeError "AggregationLayer" "LSTM") :=
  (aggregation_init_attribute_error (fun _ => "")).1

/-- Witness for C5 at a concrete input in inference mode. -/
theorem wordRepr_dropout_witness :
    wordReprForward [] false =
      Except.error (PyErr.attributeError "WordRepresentationLayer" "dropout") :=
  (wordRepr_dropout_attribute_error [] false).1

/-- Witness for C4 at concrete weights and one concrete update step. -/
theorem frozen_word_embedding_witness :
    paramValue (runOptimizer [fun _ v => v.map (fun x => x + 1)]
      (wordReprParams [5] [6] [7])) "word_encoder.weight" = some [5] :=
  (frozen_word_embedding [5] [6] [7] [fun _ v => v.map (fun x => x + 1)]).2.2

/-- Witness for the amended C2 on a one-batch validation split. -/
theorem test_eval_behavior_witness :
    test (fun (_ : Unit) (_ : Bool) (b : ℚ) => b) (fun _ _ _ => 1) (fun _ => 1)
      (BimpmModel.mk () true) (SplitData.mk [2] []) "valid" = some (2, 1) := by
  have h := (test_eval_behavior (fun (_ : Unit) (_ : Bool) (b : ℚ) => b)
    (fun _ _ _ => 1) (fun _ => 1) (BimpmModel.mk () true)
    (SplitData.mk [2] []) true).1
  rw [h]
  norm_num

/-- Witness for C6 at concrete dimensions and an empty other sentence. -/
theorem matching_zero_witness :
    cosineSim (List.replicate 1 0) [] = 0 :=
  (matching_zero_fallbacks 1 1 1 ([] : List ℝ) ([] : List (List ℝ))
    ([] : List (List ℝ))).1

end BimpmSpec
